import Mathlib

/-
Verification development for Extras/Reconstitute.py (lx-ebs-backups).

The script is a sequential orchestration program against the EC2 control
plane.  We embed it shallowly: every provider call is recorded as a `Call`
event; the provider itself is an `Env` of response oracles; process
termination (`sys.exit`) and uncaught Python exceptions are both modelled
as `PyErr` values threaded through `Except`.  Strings that the code
inspects character-by-character (resource identifiers fed to `re.match`)
are modelled as `List Char`; opaque strings (device paths, zone names,
messages) stay `String`.
-/

deriving instance DecidableEq for Except

/-- Ways a run can terminate abnormally: a deliberate `sys.exit(msg)`, a
`raise ValueError(msg)` (catchable), or an uncaught Python exception that
kills the process with a traceback (recorded by exception-class name). -/
inductive PyErr where
  | sysExit (msg : String)
  | valueError (msg : String)
  | uncaught (exc : String)
deriving DecidableEq

/-- Provider calls issued by the script, with the arguments the claims
reason about. -/
inductive Call where
  | describeImages (ami : List Char)
  | describeSubnets (subnet : String)
  | describeSecurityGroups (g : List Char)
  | describeKeyPairs (k : String)
  | describeSnapshots (tag : String) (value : Option String)
  | createVolume (az : String) (vtype : String) (iops : Option Int) (snap : String)
  | runInstances (az : String)
  | attachVolume (device : String) (inst : String) (vol : String)
  | modifyInstanceGroups (inst : String)
deriving DecidableEq

/-- One snapshot as returned by `describe_snapshots`: id, recorded size in
GiB, and its tag list (Key/Value pairs in provider order). -/
structure SnapItem where
  snapshotId : String
  volumeSize : Int
  tags : List (String × String)
deriving DecidableEq

/-- The per-snapshot record built by `ebs_snap_tags_to_attribs`: the
`VolumeSize` entry plus the flattened tag dictionary.  (The Python code
stores both in one dict; we keep the integer size in its own field.  The
model assumes no snapshot carries a tag literally named `VolumeSize`,
which would overwrite the integer entry in the Python dict.) -/
structure SnapAttr where
  volumeSize : Int
  tags : List (String × String)
deriving DecidableEq

/-- `SNAP_ATTRIBS`: snapshot-id-keyed records, in provider order. -/
abbrev SnapAttribs := List (String × SnapAttr)

/-- A created volume as seen in the `create_volume` response: its id and
the tags requested via TagSpecifications (which the provider echoes). -/
structure VolumeInfo where
  volumeId : String
  tags : List (String × String)
deriving DecidableEq

/-- The parsed command-line flags (module globals of Reconstitute.py).
Flags without an argparse default parse to Python `None`, modelled as
`Option`. -/
structure Config where
  amiId : Option (List Char)
  ebsType : String
  ebsIops : Int
  ec2Subnet : Option String
  ec2Type : String
  powerOn : Bool
  provKey : Option String
  securityGroups : Option (List Char)
  snapSearchTag : String
  snapSearchVal : Option String
  snapEc2IdTag : String
  snapDevTag : String
  userdataBool : Bool
  userdataFile : Option String

/-- The provider: responses to each kind of call.  `none` means the call
raises `ClientError` (or the file is missing, for `fileContent`). -/
structure Env where
  fileContent : String → Option String
  amiExists : List Char → Bool
  subnetAz : String → Option String
  sgExists : List Char → Bool
  keyOk : Bool
  snapshots : List SnapItem
  createVolume : String → Option String
  runInstanceId : Option String
  attachOk : String → Bool
  modifyGroupsOk : Bool

/-- Python-dict lookup on the flattened tag record: repeated assignment
means the LAST occurrence of a key wins. -/
def dictGet (ts : List (String × String)) (k : String) : Option String :=
  (ts.reverse.find? (fun q => q.1 == k)).map (fun q => q.2)

/-- The regex character class `[a-f0-9]`. -/
def isLowerHex (c : Char) : Bool :=
  (decide ('a' ≤ c) && decide (c ≤ 'f')) || (decide ('0' ≤ c) && decide (c ≤ '9'))

/-- `re.match(r"(pfx)([a-f0-9]{n})", s)`: anchored at the start, the
match succeeds when `s` begins with `pfx` followed by at least `n`
lowercase-hex characters; `group(0)` is the matched text. -/
def reMatchHex (p : List Char) (n : Nat) (s : List Char) : Option (List Char) :=
  if s.take p.length = p ∧ p.length + n ≤ s.length ∧ ((s.drop p.length).take n).all isLowerHex
  then some (p ++ (s.drop p.length).take n)
  else none

def amiPfx : List Char := ['a', 'm', 'i', '-']

def sgPfx : List Char := ['s', 'g', '-']

def amiLenErr (a : List Char) : PyErr :=
  .sysExit ("ERROR: AMI id-string [" ++ String.mk a ++ "] is not a valid length. Aborting...")

def amiCharErr (a : List Char) : PyErr :=
  .sysExit ("ERROR: AMI id-string[" ++ String.mk a ++ "] contains invalid characters. Aborting...")

def amiNotFoundErr (a : List Char) : PyErr :=
  .sysExit ("ERROR: AMI " ++ String.mk a ++ " not found. Aborting...")

def amiValueErr (a : List Char) : PyErr :=
  .sysExit ("ERROR: AMI " ++ String.mk a ++ " is an invalid value. Aborting...")

def sgLenErr (g : List Char) : PyErr :=
  .sysExit ("ERROR: requested security-group [" ++ String.mk g ++ "] is not a valid string-length. Aborting...")

def sgCharErr (g : List Char) : PyErr :=
  .sysExit ("ERROR: security-group [" ++ String.mk g ++ "] contains invalid characters. Aborting...")

def sgNotFoundErr (g : List Char) : PyErr :=
  .sysExit ("ERROR: Requested security-group [" ++ String.mk g ++ "] does not exist. Aborting...")

/-- `validate_ami_id` (lines 416-448).  The flag has no default, so an
omitted `-a` leaves `AMI_ID = None` and `len(AMI_ID)` raises TypeError.
On success the (unchanged) global id is what later steps consume, so the
model returns it. -/
def validate_ami_id (env : Env) (amiOpt : Option (List Char)) :
    List Call × Except PyErr (List Char) :=
  match amiOpt with
  | none => ([], .error (.uncaught "TypeError"))
  | some a =>
    match (if a.length = 12 then some (reMatchHex amiPfx 8 a)
           else if a.length = 21 then some (reMatchHex amiPfx 17 a)
           else none) with
    | none => ([], .error (amiLenErr a))
    | some none => ([], .error (amiCharErr a))
    | some (some g) =>
      if a = g then
        if env.amiExists a then ([.describeImages a], .ok a)
        else ([.describeImages a], .error (amiNotFoundErr a))
      else ([], .error (amiValueErr a))

/-- Body of the per-entry loop of `validate_security_group`
(lines 530-558).  When the regex matches but `group(0)` differs from the
entry (impossible: the pattern length equals the string length) the
Python loop falls through and the entry passes unchecked; the model keeps
that branch. -/
def validate_sg_entry (env : Env) (g : List Char) : List Call × Except PyErr Unit :=
  match (if g.length = 11 then some (reMatchHex sgPfx 8 g)
         else if g.length = 20 then some (reMatchHex sgPfx 17 g)
         else none) with
  | none => ([], .error (sgLenErr g))
  | some none => ([], .error (sgCharErr g))
  | some (some m) =>
    if g = m then
      if env.sgExists g then ([.describeSecurityGroups g], .ok ())
      else ([.describeSecurityGroups g], .error (sgNotFoundErr g))
    else ([], .ok ())

/-- Python `str.split(sep)` for a one-character separator: `"" ↦ [""]`,
empty fields preserved. -/
def pysplit (sep : Char) : List Char → List (List Char)
  | [] => [[]]
  | c :: rest =>
    if c = sep then [] :: pysplit sep rest
    else
      match pysplit sep rest with
      | [] => [[c]]
      | g :: gs => (c :: g) :: gs

/-- The `while len(security_group_list) > 5: security_group_list.pop()`
loop (lines 525-528): pop removes the LAST element.  The fuel argument
bounds the iterations (the list length suffices). -/
def trimLoop : Nat → List (List Char) → List (List Char)
  | 0, l => l
  | n + 1, l => if l.length > 5 then trimLoop n l.dropLast else l

def trimSgList (l : List (List Char)) : List (List Char) :=
  trimLoop l.length l

/-- The `for security_group in security_group_list` loop of
`validate_security_group`. -/
def validateSgEntries (env : Env) : List (List Char) → List Call × Except PyErr Unit
  | [] => ([], .ok ())
  | g :: rest =>
    match validate_sg_entry env g with
    | (t, .error e) => (t, .error e)
    | (t, .ok ()) =>
      match validateSgEntries env rest with
      | (t2, r) => (t ++ t2, r)

/-- `validate_security_group` (lines 516-560).  It is invoked
unconditionally at line 772; with `-x` omitted, `SECURITY_GROUPS` is
`None` and `None.split(",")` raises an uncaught AttributeError. -/
def validate_security_group (env : Env) (sgOpt : Option (List Char)) :
    List Call × Except PyErr (List (List Char)) :=
  match sgOpt with
  | none => ([], .error (.uncaught "AttributeError"))
  | some raw =>
    let l := trimSgList (pysplit ',' raw)
    match validateSgEntries env l with
    | (t, .error e) => (t, .error e)
    | (t, .ok ()) => (t, .ok l)

/-- `validate_subnet` (lines 563-576): resolves the deployment subnet to
its availability zone; a missing `-s` flag makes boto3 reject the `None`
subnet id before any request is sent. -/
def validate_subnet (env : Env) (subnetOpt : Option String) :
    List Call × Except PyErr String :=
  match subnetOpt with
  | none => ([], .error (.uncaught "ParamValidationError"))
  | some s =>
    match env.subnetAz s with
    | none => ([.describeSubnets s], .error (.sysExit ("\nERROR: Subnet " ++ s ++ " not found. Aborting...")))
    | some az => ([.describeSubnets s], .ok az)

/-- `validate_provision_key` (lines 501-513). -/
def validate_provision_key (env : Env) (keyOpt : Option String) :
    List Call × Except PyErr Unit :=
  match keyOpt with
  | none => ([], .error (.uncaught "ParamValidationError"))
  | some k =>
    if env.keyOk then ([.describeKeyPairs k], .ok ())
    else ([.describeKeyPairs k],
      .error (.sysExit ("ERROR: requested provisioning-key [" ++ k ++ "] not found. Aborting...")))

/-- Lines 756-762: the `-u`/`-U` mutual-exclusion check and the early
read of the userData file. -/
def userdataChecks (cfg : Config) (env : Env) : List Call × Except PyErr Unit :=
  if cfg.userdataBool && cfg.userdataFile.isSome then
    ([], .error (.sysExit "ERROR: `-u` and `-U` are mutually-exclusive options"))
  else
    match cfg.userdataFile with
    | none => ([], .ok ())
    | some f =>
      match env.fileContent f with
      | none => ([], .error (.sysExit ("\nABORTING: Failed while opening " ++ f)))
      | some _ => ([], .ok ())

/-- `validate_io1_config` (lines 451-476), reading the globals
`EBS_IOPS` and `EBS_TYPE`.  A too-small size raises ValueError (caught by
the caller); ratio problems call `sys.exit` directly; otherwise the
size-times-ratio product is clamped into [100, 64000]. -/
def validate_io1_config (ebsIops : Int) (ebsType : String) (snapSize : Int) :
    Except PyErr Int :=
  if snapSize < 4 then
    .error (.valueError ("Requested volume-size [" ++ toString snapSize ++ "] is less than minimum allowed [4]."))
  else if ebsIops > 0 then
    if ebsIops < 3 ∨ ebsIops > 50 then .error (.sysExit "Value out of range: must be 3-50")
    else
      let volIops := snapSize * ebsIops
      .ok (if volIops < 100 then 100 else if volIops > 64000 then 64000 else volIops)
  else
    .error (.sysExit ("Specified EBS-type " ++ ebsType ++ " but failed to specify an IOPs-ratio. Aborting... "))

/-- `ebs_get_snap_info` (lines 168-180): the tag query, with the
empty-result hard stop. -/
def ebs_get_snap_info (cfg : Config) (env : Env) :
    List Call × Except PyErr (List SnapItem) :=
  let c := Call.describeSnapshots cfg.snapSearchTag cfg.snapSearchVal
  if env.snapshots.isEmpty then
    ([c], .error (.sysExit "Found no matching snapshots to reconstitute: aborting"))
  else ([c], .ok env.snapshots)

/-- `ebs_snap_tags_to_attribs` (lines 263-280): flattens each snapshot
into its attribute record. -/
def ebs_snap_tags_to_attribs (cfg : Config) (env : Env) :
    List Call × Except PyErr SnapAttribs :=
  match ebs_get_snap_info cfg env with
  | (t, .error e) => (t, .error e)
  | (t, .ok items) =>
    (t, .ok (items.map (fun i => (i.snapshotId, SnapAttr.mk i.volumeSize i.tags))))

/-- `recovery_ec2_get_az` (lines 18-30): pass a non-empty zone through
unchanged; the empty string falls back to the first snapshot record
(`next(iter(...))` raises StopIteration on an empty dict, and a missing
tag raises KeyError). -/
def recovery_ec2_get_az (ec2Az : String) (attrs : SnapAttribs) : Except PyErr String :=
  if ec2Az = "" then
    match attrs with
    | [] => .error (.uncaught "StopIteration")
    | (_, a) :: _ =>
      match dictGet a.tags "Original AZ" with
      | none => .error (.uncaught "KeyError")
      | some raz => .ok raz
  else .ok ec2Az

/-- `ebs_snap_reconstitute` (lines 183-260).  Per snapshot: read the two
provenance tags (a dict miss is an uncaught KeyError), dispatch on the
volume kind, create the volume tagged with hard-coded keys
`Original Instance` / `Original Attachment`, and collect the create
responses in order.  ValueError from the io1 validation is caught and
converted to `sys.exit`; its own `sys.exit` calls propagate; a rejected
create call exits. -/
def ebs_snap_reconstitute (cfg : Config) (env : Env) (buildAz : String) (ebsType : String) :
    SnapAttribs → List Call × Except PyErr (List VolumeInfo)
  | [] => ([], .ok [])
  | (sid, a) :: rest =>
    match dictGet a.tags cfg.snapEc2IdTag with
    | none => ([], .error (.uncaught "KeyError"))
    | some origEc2 =>
      match dictGet a.tags cfg.snapDevTag with
      | none => ([], .error (.uncaught "KeyError"))
      | some origDev =>
        if ebsType = "io1" then
          match validate_io1_config cfg.ebsIops cfg.ebsType a.volumeSize with
          | .error (.valueError m) => ([], .error (.sysExit ("FAILED: " ++ m ++ " Aborting... ")))
          | .error e => ([], .error e)
          | .ok iops =>
            match env.createVolume sid with
            | none => ([.createVolume buildAz ebsType (some iops) sid], .error (.sysExit "FAILED. Aborting... "))
            | some vid =>
              let tags := [("Original Instance", origEc2), ("Original Attachment", origDev)]
              match ebs_snap_reconstitute cfg env buildAz ebsType rest with
              | (t, r) =>
                (.createVolume buildAz ebsType (some iops) sid :: t,
                 r.map (fun vs => VolumeInfo.mk vid tags :: vs))
        else if ebsType = "gp2" then
          match env.createVolume sid with
          | none => ([.createVolume buildAz ebsType none sid], .error (.sysExit "FAILED. Aborting... "))
          | some vid =>
            let tags := [("Original Instance", origEc2), ("Original Attachment", origDev)]
            match ebs_snap_reconstitute cfg env buildAz ebsType rest with
            | (t, r) =>
              (.createVolume buildAz ebsType none sid :: t,
               r.map (fun vs => VolumeInfo.mk vid tags :: vs))
        else
          ([], .error (.sysExit ("ERROR: requested volume-type \"" ++ ebsType ++ "\" not currently supported. Aborting... ")))

/-- The `for ebs_object in ebs_info` loop of `ebs_reconstitution_attach`
(lines 290-305): `next(...)` takes the FIRST tag whose Key is the
hard-coded `Original Attachment` (StopIteration if absent), then the
attach call is issued with that device path; a rejected attach call is
an uncaught ClientError (there is no try around it). -/
def attachLoop (env : Env) (inst : String) : List VolumeInfo → List Call × Except PyErr Unit
  | [] => ([], .ok ())
  | v :: rest =>
    match v.tags.find? (fun q => q.1 == "Original Attachment") with
    | none => ([], .error (.uncaught "StopIteration"))
    | some kv =>
      if env.attachOk v.volumeId then
        match attachLoop env inst rest with
        | (t, r) => (.attachVolume kv.2 inst v.volumeId :: t, r)
      else ([.attachVolume kv.2 inst v.volumeId], .error (.uncaught "ClientError"))

/-- `ebs_reconstitution_attach` (lines 283-307).  With an empty volume
list the final `return attachment_output` reads a never-assigned local
(UnboundLocalError). -/
def ebs_reconstitution_attach (env : Env) (inst : String) (ebsInfo : List VolumeInfo) :
    List Call × Except PyErr Unit :=
  match ebsInfo with
  | [] => ([], .error (.uncaught "UnboundLocalError"))
  | l => attachLoop env inst l

/-- `recovery_ec2_make` (lines 33-51): the launch request places the
instance in the zone held by the global `EC2_AZ` (the subnet's zone). -/
def recovery_ec2_make (env : Env) (placementAz : String) :
    List Call × Except PyErr String :=
  match env.runInstanceId with
  | none => ([.runInstances placementAz], .error (.uncaught "ClientError"))
  | some iid => ([.runInstances placementAz], .ok iid)

/-- `recovery_ec2_add_access` (lines 148-165).  On ClientError the
handler builds its message from the name `security_group`, which is bound
nowhere in scope (the parameter is `security_group_list`, and no module
global of that name exists), so the handler itself raises an uncaught
NameError instead of logging and returning. -/
def recovery_ec2_add_access (env : Env) (ec2Id : String) (sgList : List (List Char)) :
    List Call × Except PyErr Unit :=
  if env.modifyGroupsOk then ([.modifyInstanceGroups ec2Id], .ok ())
  else ([.modifyInstanceGroups ec2Id], .error (.uncaught "NameError"))

/-- Delay (in `time.sleep` units) taken before each retry of the
`recovery_ec2_monitor_transition` loop (lines 85-100), given the sequence
of `recovery_ec2_check_state` outcomes (`.error ()` = ValueError).  Both
the mismatch branch and the ValueError branch sleep 10 before the next
query. -/
def monitorRetryDelays (targetStatus : String) : List (Except Unit String) → List Nat
  | [] => []
  | .error () :: rest => 10 :: monitorRetryDelays targetStatus rest
  | .ok st :: rest =>
    if st = targetStatus then [] else 10 :: monitorRetryDelays targetStatus rest

/-- Delay before each retry of the detach-until-available wait of
`nuke_root_ebs` (lines 387-395), given the volume states the provider
reports (one state per loop round; the in-body re-describe sees the same
state).  Every retry follows a `time.sleep(10)`. -/
def detachWaitRetryDelays : List String → List Nat
  | [] => []
  | st :: rest => if st = "available" then [] else 10 :: detachWaitRetryDelays rest

/-- Delay before each retry of the delete-confirmation wait of
`nuke_root_ebs` (lines 407-413), given whether each `describe_volumes`
still recognises the id (`false` = ClientError = deleted).  The loop body
contains no `time.sleep` at all, so every retry happens immediately:
delay 0. -/
def deleteWaitRetryDelays : List Bool → List Nat
  | [] => []
  | stillThere :: rest => if stillThere then 0 :: deleteWaitRetryDelays rest else []

/-- Sequencing of the module-level steps: an abort keeps the trace so
far; success concatenates traces. -/
def bindF {α β : Type} (x : List Call × Except PyErr α)
    (f : α → List Call × Except PyErr β) : List Call × Except PyErr β :=
  match x with
  | (t, .error e) => (t, .error e)
  | (t, .ok a) =>
    match f a with
    | (t2, r) => (t ++ t2, r)

/-- Values the validation phase (lines 756-775) hands to the rest of the
run: the validated image id, the zone of the deployment subnet, and the
validated security-group list. -/
structure ValCtx where
  ami : List Char
  ec2Az : String
  sgList : List (List Char)
deriving DecidableEq

/-- Lines 756-775 in script order: mutual-exclusion and file checks,
`validate_ami_id`, `validate_subnet`, `validate_security_group`,
`validate_provision_key`. -/
def validatePhase (cfg : Config) (env : Env) : List Call × Except PyErr ValCtx :=
  bindF (userdataChecks cfg env) (fun _ =>
  bindF (validate_ami_id env cfg.amiId) (fun ami =>
  bindF (validate_subnet env cfg.ec2Subnet) (fun az =>
  bindF (validate_security_group env cfg.securityGroups) (fun sgs =>
  bindF (validate_provision_key env cfg.provKey) (fun _ =>
  ([], .ok (ValCtx.mk ami az sgs)))))))

/-- What a run that reached the launch call has produced. -/
structure LaunchSummary where
  buildAz : String
  volumes : List VolumeInfo
  instanceId : String
  sgList : List (List Char)
deriving DecidableEq

/-- The module-level flow of Reconstitute.py, lines 756-790: validation,
snapshot inventory, zone choice, volume reconstruction, and the
recovery-instance launch (the later lifecycle steps are modelled
separately by the poll-delay functions and the attach/access
functions). -/
def mainFlow (cfg : Config) (env : Env) : List Call × Except PyErr LaunchSummary :=
  bindF (validatePhase cfg env) (fun v =>
  bindF (ebs_snap_tags_to_attribs cfg env) (fun attrs =>
  bindF ([], recovery_ec2_get_az v.ec2Az attrs) (fun buildAz =>
  bindF (ebs_snap_reconstitute cfg env buildAz cfg.ebsType attrs) (fun vols =>
  bindF (recovery_ec2_make env v.ec2Az) (fun iid =>
  ([], .ok (LaunchSummary.mk buildAz vols iid v.sgList)))))))

/-- Calls a validator may issue (existence checks only). -/
def isValidationCall : Call → Bool
  | .describeImages _ => true
  | .describeSubnets _ => true
  | .describeSecurityGroups _ => true
  | .describeKeyPairs _ => true
  | _ => false

def isCreateVolume : Call → Bool
  | .createVolume _ _ _ _ => true
  | _ => false

def isRunInstances : Call → Bool
  | .runInstances _ => true
  | _ => false

def isDescribeSnapshots : Call → Bool
  | .describeSnapshots _ _ => true
  | _ => false

/-- The availability zone a call builds in, when it has one: the zone of
a `create_volume` request or the placement zone of `run_instances`. -/
def callBuildAz : Call → Option String
  | .createVolume az _ _ _ => some az
  | .runInstances az => some az
  | _ => none

def isErr {α : Type} : Except PyErr α → Bool
  | .error _ => true
  | .ok _ => false

/-- Device paths of the attach calls in a trace, in order. -/
def attachDevices (t : List Call) : List String :=
  t.filterMap (fun c => match c with | .attachVolume d _ _ => some d | _ => none)

/-- Volume ids of the attach calls in a trace, in order. -/
def attachVolIds (t : List Call) : List String :=
  t.filterMap (fun c => match c with | .attachVolume _ _ v => some v | _ => none)

/-- The attachment point the attach loop reads from a created volume. -/
def devOfV (v : VolumeInfo) : Option String :=
  (v.tags.find? (fun q => q.1 == "Original Attachment")).map (fun q => q.2)

/-- The original-device tag value recorded on a snapshot record. -/
def devTagOf (cfg : Config) (p : String × SnapAttr) : Option String :=
  dictGet p.2.tags cfg.snapDevTag

/-- The shape the claims ascribe to a valid resource id: the
resource-type marker followed by exactly 8 or 17 lowercase-hex
characters. -/
def WellFormedId (p x : List Char) : Prop :=
  x.take p.length = p ∧ (x.drop p.length).all isLowerHex = true ∧
    ((x.drop p.length).length = 8 ∨ (x.drop p.length).length = 17)

instance (p x : List Char) : Decidable (WellFormedId p x) := by
  unfold WellFormedId; infer_instance

/-- Concrete flag set used by the witnesses: every flag valid, gp2
recovery, default tag names. -/
def happyCfg : Config :=
  { amiId := some "ami-0a1b2c3d".toList
    ebsType := "gp2"
    ebsIops := 0
    ec2Subnet := some "subnet-1"
    ec2Type := "t3.large"
    powerOn := false
    provKey := some "prov-key"
    securityGroups := some "sg-0a1b2c3d".toList
    snapSearchTag := "Snapshot Group"
    snapSearchVal := some "web-01"
    snapEc2IdTag := "Original Instance"
    snapDevTag := "Original Attachment"
    userdataBool := false
    userdataFile := none }

/-- Two-snapshot batch tagged with attachment points /dev/sdf and
/dev/sdg and source instance i-aaa. -/
def snapItemsW : List SnapItem :=
  [⟨"snap-1", 8, [("Snapshot Group", "web-01"), ("Original Instance", "i-aaa"), ("Original Attachment", "/dev/sdf")]⟩,
   ⟨"snap-2", 8, [("Snapshot Group", "web-01"), ("Original Instance", "i-aaa"), ("Original Attachment", "/dev/sdg")]⟩]

/-- A provider on which every call succeeds. -/
def happyEnv : Env :=
  { fileContent := fun _ => some ""
    amiExists := fun _ => true
    subnetAz := fun _ => some "us-east-1a"
    sgExists := fun _ => true
    keyOk := true
    snapshots := snapItemsW
    createVolume := fun s => some ("vol-" ++ s)
    runInstanceId := some "i-recover"
    attachOk := fun _ => true
    modifyGroupsOk := true }

/-- The happy provider with an empty snapshot query result. -/
def emptySnapEnv : Env := { happyEnv with snapshots := [] }

/-- The happy provider, except the security-group modify call is
rejected. -/
def failModifyEnv : Env := { happyEnv with modifyGroupsOk := false }

/-- The happy flag set with the security-group flag omitted. -/
def noSgCfg : Config := { happyCfg with securityGroups := none }

/-- The happy flag set requesting the unsupported volume kind io2. -/
def io2Cfg : Config := { happyCfg with ebsType := "io2" }

/-- The attribute records built from the witness batch. -/
def attrsW : SnapAttribs :=
  snapItemsW.map (fun i => (i.snapshotId, SnapAttr.mk i.volumeSize i.tags))

/-- The volumes the witness reconstruction produces. -/
def volsW : List VolumeInfo :=
  [⟨"vol-snap-1", [("Original Instance", "i-aaa"), ("Original Attachment", "/dev/sdf")]⟩,
   ⟨"vol-snap-2", [("Original Instance", "i-aaa"), ("Original Attachment", "/dev/sdg")]⟩]

/-- The create calls of the witness reconstruction. -/
def createTraceW : List Call :=
  [.createVolume "us-east-1a" "gp2" none "snap-1", .createVolume "us-east-1a" "gp2" none "snap-2"]

/-- The attach calls of the witness run. -/
def attachTraceW : List Call :=
  [.attachVolume "/dev/sdf" "i-recover" "vol-snap-1", .attachVolume "/dev/sdg" "i-recover" "vol-snap-2"]

/-- A comma-separated security-group input with six valid entries. -/
def rawSg6 : List Char :=
  "sg-0000000a,sg-0000000b,sg-0000000c,sg-0000000d,sg-0000000e,sg-0000000f".toList

/-- The first five entries of `rawSg6`. -/
def keptSg5 : List (List Char) :=
  ["sg-0000000a".toList, "sg-0000000b".toList, "sg-0000000c".toList,
   "sg-0000000d".toList, "sg-0000000e".toList]

/-- The existence checks issued while validating `rawSg6`. -/
def sg6Trace : List Call := keptSg5.map Call.describeSecurityGroups

theorem trimLoop_eq (n : Nat) : ∀ l : List (List Char), l.length ≤ 5 + n →
    trimLoop n l = if l.length ≤ 5 then l else l.take 5 := by
  induction n with
  | zero =>
    intro l h
    rw [trimLoop, if_pos (by omega)]
  | succ n ih =>
    intro l h
    rw [trimLoop]
    by_cases h5 : l.length > 5
    · rw [if_pos h5, if_neg (by omega)]
      have hd : l.dropLast.length ≤ 5 + n := by
        simp only [List.length_dropLast]; omega
      rw [ih l.dropLast hd]
      by_cases h6 : l.dropLast.length ≤ 5
      · rw [if_pos h6, List.dropLast_eq_take]
        have : l.length - 1 = 5 := by simp only [List.length_dropLast] at h6; omega
        rw [this]
      · rw [if_neg h6, List.dropLast_eq_take, List.take_take]
        have : min 5 (l.length - 1) = 5 := by
          simp only [List.length_dropLast, List.length_take] at h6 ⊢; omega
        rw [this]
    · rw [if_neg h5, if_pos (by omega)]

theorem trimSgList_eq (l : List (List Char)) :
    trimSgList l = if l.length ≤ 5 then l else l.take 5 :=
  trimLoop_eq l.length l (by omega)

/-- C7: for every comma-separated security-group input with more than 5
entries, the validated list the run keeps is exactly the first 5 entries
of the split input, in their original order. -/
theorem c7_sg_truncation (env : Env) (raw : List Char) (t : List Call)
    (gs : List (List Char)) (hlen : 5 < (pysplit ',' raw).length)
    (hok : validate_security_group env (some raw) = (t, .ok gs)) :
    gs = (pysplit ',' raw).take 5 := by
  rw [validate_security_group] at hok
  rcases hval : validateSgEntries env (trimSgList (pysplit ',' raw)) with ⟨t2, r⟩
  cases r with
  | error e => rw [hval] at hok; simp at hok
  | ok u =>
    rw [hval] at hok
    simp only [Prod.mk.injEq, Except.ok.injEq] at hok
    rw [← hok.2, trimSgList_eq, if_neg (by omega)]

theorem c7_sg_truncation_witness :
    5 < (pysplit ',' rawSg6).length ∧ keptSg5 = (pysplit ',' rawSg6).take 5 :=
  ⟨by decide, c7_sg_truncation happyEnv rawSg6 sg6Trace keptSg5 (by decide) (by decide)⟩

/-- C4: for io1, size at least 4 and ratio in [3,50] give exactly
size * ratio clamped into [100, 64000]; a smaller size or a ratio outside
the range (including the 0 default) makes `validate_io1_config` abort the
run instead of defaulting. -/
theorem c4_io1_iops (size ratio : Int) (ty : String) :
    (4 ≤ size → 3 ≤ ratio → ratio ≤ 50 →
      validate_io1_config ratio ty size = .ok (max 100 (min (size * ratio) 64000)))
    ∧ (size < 4 → isErr (validate_io1_config ratio ty size) = true)
    ∧ (ratio < 3 ∨ 50 < ratio → isErr (validate_io1_config ratio ty size) = true) := by
  refine ⟨?_, ?_, ?_⟩
  · intro h4 h3 h50
    rw [validate_io1_config, if_neg (by omega), if_pos (by omega), if_neg (by omega)]
    show Except.ok (if size * ratio < 100 then (100 : Int) else if size * ratio > 64000 then 64000 else size * ratio)
      = Except.ok (max 100 (min (size * ratio) 64000))
    congr 1
    rcases lt_or_le (size * ratio) 100 with h | h
    · rw [if_pos h, min_eq_left (by linarith), max_eq_left (by linarith)]
    · rw [if_neg (by omega)]
      rcases le_or_lt (size * ratio) 64000 with h2 | h2
      · rw [if_neg (by omega), min_eq_left h2, max_eq_right h]
      · rw [if_pos (by omega), min_eq_right (by linarith), max_eq_right (by norm_num)]
  · intro h4
    rw [validate_io1_config, if_pos h4]; rfl
  · intro hr
    rw [validate_io1_config]
    by_cases h4 : size < 4
    · rw [if_pos h4]; rfl
    · rw [if_neg h4]
      by_cases hp : ratio > 0
      · rw [if_pos hp, if_pos (by omega)]; rfl
      · rw [if_neg hp]; rfl

theorem c4_io1_iops_witness :
    validate_io1_config 5 "io1" 10 = .ok 100
    ∧ validate_io1_config 50 "io1" 2000 = .ok 64000
    ∧ validate_io1_config 3 "io1" 4 = .ok 100
    ∧ isErr (validate_io1_config 5 "io1" 3) = true
    ∧ isErr (validate_io1_config 51 "io1" 10) = true
    ∧ isErr (validate_io1_config 0 "io1" 10) = true := by
  refine ⟨?_, ?_, ?_, ?_, ?_, ?_⟩
  · have h := (c4_io1_iops 10 5 "io1").1 (by norm_num) (by norm_num) (by norm_num)
    rwa [show (max 100 (min ((10 : Int) * 5) 64000)) = 100 from by decide] at h
  · have h := (c4_io1_iops 2000 50 "io1").1 (by norm_num) (by norm_num) (by norm_num)
    rwa [show (max 100 (min ((2000 : Int) * 50) 64000)) = 64000 from by decide] at h
  · have h := (c4_io1_iops 4 3 "io1").1 (by norm_num) (by norm_num) (by norm_num)
    rwa [show (max 100 (min ((4 : Int) * 3) 64000)) = 100 from by decide] at h
  · exact (c4_io1_iops 3 5 "io1").2.1 (by norm_num)
  · exact (c4_io1_iops 10 51 "io1").2.2 (Or.inr (by norm_num))
  · exact (c4_io1_iops 10 0 "io1").2.2 (Or.inl (by norm_num))

/-- C5 counterexample: in the delete-confirmation wait of
`nuke_root_ebs` a retry happens with no delay at all (the loop body has
no `time.sleep`), so not every polling retry waits 10 time-units. -/
theorem c5_delete_wait_counterexample :
    deleteWaitRetryDelays [true, false] = [0]
    ∧ ((deleteWaitRetryDelays [true, false]).all (fun d => d == 10)) = false := by
  decide

/-- C5 (amended): retries of the reachability/stop waits and of the
detach-until-available wait each follow a fixed 10-unit delay, but
retries of the delete-confirmation wait follow no delay (0 units). -/
theorem c5_retry_delays (target : String) (rs : List (Except Unit String))
    (sts : List String) (bs : List Bool) :
    (monitorRetryDelays target rs).all (fun d => d == 10) = true
    ∧ (detachWaitRetryDelays sts).all (fun d => d == 10) = true
    ∧ (deleteWaitRetryDelays bs).all (fun d => d == 0) = true := by
  refine ⟨?_, ?_, ?_⟩
  · induction rs with
    | nil => rfl
    | cons r rest ih =>
      cases r with
      | error u => cases u; simpa [monitorRetryDelays] using ih
      | ok st =>
        by_cases h : st = target
        · simp [monitorRetryDelays, h]
        · simpa [monitorRetryDelays, h] using ih
  · induction sts with
    | nil => rfl
    | cons st rest ih =>
      by_cases h : st = "available"
      · simp [detachWaitRetryDelays, h]
      · simpa [detachWaitRetryDelays, h] using ih
  · induction bs with
    | nil => rfl
    | cons b rest ih =>
      cases b with
      | false => simp [deleteWaitRetryDelays]
      | true => simpa [deleteWaitRetryDelays] using ih

/-- C2: when the provider rejects the security-group modify call, the
except-handler of `recovery_ec2_add_access` evaluates the unbound name
`security_group` and the process dies with an uncaught NameError — the
run does not log-and-continue. -/
theorem c2_sg_modify_failure_aborts :
    recovery_ec2_add_access failModifyEnv "i-recover" ["sg-0a1b2c3d".toList] =
      ([Call.modifyInstanceGroups "i-recover"], .error (.uncaught "NameError")) := by
  rfl

theorem bindF_error {α β : Type} (t : List Call) (e : PyErr)
    (f : α → List Call × Except PyErr β) : bindF (t, .error e) f = (t, .error e) := rfl

theorem bindF_ok {α β : Type} (t : List Call) (a : α)
    (f : α → List Call × Except PyErr β) :
    bindF (t, .ok a) f = (t ++ (f a).1, (f a).2) := by
  rcases h : f a with ⟨t2, r⟩
  simp [bindF, h]

theorem bindF_eq_ok {α β : Type} {x : List Call × Except PyErr α}
    {f : α → List Call × Except PyErr β} {t : List Call} {b : β}
    (h : bindF x f = (t, .ok b)) :
    ∃ t1 a t2, x = (t1, .ok a) ∧ f a = (t2, .ok b) ∧ t = t1 ++ t2 := by
  rcases x with ⟨t1, r⟩
  cases r with
  | error e => rw [bindF_error] at h; simp at h
  | ok a =>
    rcases hf : f a with ⟨t2, r2⟩
    rw [bindF_ok, hf] at h
    cases r2 with
    | error e => simp at h
    | ok b2 =>
      simp only [Prod.mk.injEq, Except.ok.injEq] at h
      exact ⟨t1, a, t2, rfl, by rw [hf, h.2], h.1.symm⟩

theorem userdataChecks_calls (cfg : Config) (env : Env) :
    (userdataChecks cfg env).1 = [] := by
  rw [userdataChecks]
  repeat' split
  all_goals rfl

theorem validate_ami_id_calls (env : Env) (o : Option (List Char)) :
    ((validate_ami_id env o).1).all isValidationCall = true := by
  rw [validate_ami_id.eq_def]
  repeat' split
  all_goals rfl

theorem validate_subnet_calls (env : Env) (o : Option String) :
    ((validate_subnet env o).1).all isValidationCall = true := by
  rw [validate_subnet.eq_def]
  repeat' split
  all_goals rfl

theorem validate_sg_entry_calls (env : Env) (g : List Char) :
    ((validate_sg_entry env g).1).all isValidationCall = true := by
  rw [validate_sg_entry]
  repeat' split
  all_goals rfl

theorem validateSgEntries_calls (env : Env) :
    ∀ l, ((validateSgEntries env l).1).all isValidationCall = true := by
  intro l
  induction l with
  | nil => rfl
  | cons g rest ih =>
    have hg := validate_sg_entry_calls env g
    rw [validateSgEntries]
    rcases h : validate_sg_entry env g with ⟨t, r⟩
    rw [h] at hg
    cases r with
    | error e => simpa using hg
    | ok u =>
      cases u
      rcases h2 : validateSgEntries env rest with ⟨t2, r2⟩
      rw [h2] at ih
      simp only [List.all_append, Bool.and_eq_true]
      exact ⟨by simpa using hg, by simpa using ih⟩

theorem validate_security_group_calls (env : Env) (o : Option (List Char)) :
    ((validate_security_group env o).1).all isValidationCall = true := by
  cases o with
  | none => rfl
  | some raw =>
    have h := validateSgEntries_calls env (trimSgList (pysplit ',' raw))
    rw [validate_security_group]
    rcases h2 : validateSgEntries env (trimSgList (pysplit ',' raw)) with ⟨t, r⟩
    rw [h2] at h
    cases r with
    | error e => simpa using h
    | ok u => cases u; simpa using h

theorem validate_provision_key_calls (env : Env) (o : Option String) :
    ((validate_provision_key env o).1).all isValidationCall = true := by
  rw [validate_provision_key.eq_def]
  repeat' split
  all_goals rfl

theorem bindF_fst_all {α β : Type} (p : Call → Bool) (x : List Call × Except PyErr α)
    (f : α → List Call × Except PyErr β)
    (hx : x.1.all p = true) (hf : ∀ a, ((f a).1).all p = true) :
    ((bindF x f).1).all p = true := by
  rcases x with ⟨t, r⟩
  cases r with
  | error e => simpa using hx
  | ok a =>
    rw [bindF_ok]
    simp only [List.all_append, Bool.and_eq_true]
    exact ⟨by simpa using hx, hf a⟩

theorem validatePhase_calls (cfg : Config) (env : Env) :
    ((validatePhase cfg env).1).all isValidationCall = true := by
  rw [validatePhase]
  apply bindF_fst_all
  · rw [userdataChecks_calls]; rfl
  intro u1
  apply bindF_fst_all
  · exact validate_ami_id_calls env cfg.amiId
  intro ami
  apply bindF_fst_all
  · exact validate_subnet_calls env cfg.ec2Subnet
  intro az
  apply bindF_fst_all
  · exact validate_security_group_calls env cfg.securityGroups
  intro sgs
  apply bindF_fst_all
  · exact validate_provision_key_calls env cfg.provKey
  intro u2
  rfl

theorem isValidationCall_clean (c : Call) (h : isValidationCall c = true) :
    (!(isCreateVolume c || isRunInstances c)) = true
    ∧ isDescribeSnapshots c = false ∧ callBuildAz c = none := by
  cases c <;> simp_all [isValidationCall, isCreateVolume, isRunInstances,
    isDescribeSnapshots, callBuildAz]

/-- On an unsupported volume kind the reconstitute loop exits in its
first iteration, before any create call. -/
theorem reconstitute_unsupported (cfg : Config) (env : Env) (b ty : String)
    (hty1 : ty ≠ "io1") (hty2 : ty ≠ "gp2") :
    ∀ (attrs : SnapAttribs), attrs ≠ [] →
      ∃ e, ebs_snap_reconstitute cfg env b ty attrs = ([], .error e) := by
  intro attrs hne
  cases attrs with
  | nil => exact absurd rfl hne
  | cons p rest =>
    rcases p with ⟨sid, a⟩
    rw [ebs_snap_reconstitute]
    rcases h1 : dictGet a.tags cfg.snapEc2IdTag with _ | e1
    · exact ⟨.uncaught "KeyError", rfl⟩
    · rcases h2 : dictGet a.tags cfg.snapDevTag with _ | d1
      · exact ⟨.uncaught "KeyError", rfl⟩
      · refine ⟨.sysExit ("ERROR: requested volume-type \"" ++ ty ++ "\" not currently supported. Aborting... "), ?_⟩
        simp only [if_neg hty1, if_neg hty2]

/-- Runs whose flags or snapshot inventory force an abort at or before
the reconstitute step never issue a volume-create or instance-launch
call. -/
theorem mainFlow_early_abort (cfg : Config) (env : Env)
    (h : env.snapshots = [] ∨ (cfg.ebsType ≠ "io1" ∧ cfg.ebsType ≠ "gp2")) :
    isErr (mainFlow cfg env).2 = true
    ∧ (mainFlow cfg env).1.all (fun c => !(isCreateVolume c || isRunInstances c)) = true := by
  have hval := validatePhase_calls cfg env
  rw [mainFlow]
  rcases hv : validatePhase cfg env with ⟨t, r⟩
  rw [hv] at hval
  have hclean : t.all (fun c => !(isCreateVolume c || isRunInstances c)) = true := by
    rw [List.all_eq_true] at hval ⊢
    exact fun c hc => (isValidationCall_clean c (hval c hc)).1
  cases r with
  | error e => rw [bindF_error]; exact ⟨rfl, hclean⟩
  | ok v =>
    rw [bindF_ok]
    by_cases hemp : env.snapshots = []
    · have hs : ebs_snap_tags_to_attribs cfg env =
          ([Call.describeSnapshots cfg.snapSearchTag cfg.snapSearchVal],
           .error (.sysExit "Found no matching snapshots to reconstitute: aborting")) := by
        rw [ebs_snap_tags_to_attribs, ebs_get_snap_info]
        simp [hemp]
      rw [hs, bindF_error]
      refine ⟨rfl, ?_⟩
      simp only [List.all_append, Bool.and_eq_true]
      exact ⟨hclean, by rfl⟩
    · rcases h with h | ⟨hty1, hty2⟩
      · exact absurd h hemp
      have hs : ebs_snap_tags_to_attribs cfg env =
          ([Call.describeSnapshots cfg.snapSearchTag cfg.snapSearchVal],
           .ok (env.snapshots.map (fun i => (i.snapshotId, SnapAttr.mk i.volumeSize i.tags)))) := by
        rw [ebs_snap_tags_to_attribs, ebs_get_snap_info]
        simp [List.isEmpty_iff, hemp]
      rw [hs, bindF_ok]
      rcases hg : recovery_ec2_get_az v.ec2Az
          (env.snapshots.map (fun i => (i.snapshotId, SnapAttr.mk i.volumeSize i.tags))) with e | buildAz
      · rw [hg, bindF_error]
        refine ⟨rfl, ?_⟩
        rw [List.all_append, Bool.and_eq_true]
        exact ⟨hclean, rfl⟩
      · rw [hg, bindF_ok]
        obtain ⟨e, hrec⟩ := reconstitute_unsupported cfg env buildAz cfg.ebsType hty1 hty2
          (env.snapshots.map (fun i => (i.snapshotId, SnapAttr.mk i.volumeSize i.tags)))
          (by simpa using hemp)
        rw [hrec, bindF_error]
        refine ⟨rfl, ?_⟩
        rw [List.all_append, Bool.and_eq_true]
        exact ⟨hclean, rfl⟩

/-- C8: with an empty snapshot query result the run aborts (with the
no-matching-snapshots message whenever the query was actually reached)
and never issues a volume-create or instance-launch call. -/
theorem c8_empty_snapshot_abort (cfg : Config) (env : Env)
    (hempty : env.snapshots = []) :
    isErr (mainFlow cfg env).2 = true
    ∧ (mainFlow cfg env).1.all (fun c => !(isCreateVolume c || isRunInstances c)) = true
    ∧ ((mainFlow cfg env).1.any isDescribeSnapshots = true →
        (mainFlow cfg env).2 =
          .error (.sysExit "Found no matching snapshots to reconstitute: aborting")) := by
  obtain ⟨h1, h2⟩ := mainFlow_early_abort cfg env (Or.inl hempty)
  refine ⟨h1, h2, ?_⟩
  intro hany
  have hval := validatePhase_calls cfg env
  rw [mainFlow] at hany ⊢
  rcases hv : validatePhase cfg env with ⟨t, r⟩
  rw [hv] at hval hany
  cases r with
  | error e =>
    rw [bindF_error] at hany
    exfalso
    rw [List.any_eq_true] at hany
    obtain ⟨c, hc, hcd⟩ := hany
    rw [List.all_eq_true] at hval
    have hfalse := (isValidationCall_clean c (hval c hc)).2.1
    rw [hfalse] at hcd
    exact Bool.noConfusion hcd
  | ok v =>
    have hs : ebs_snap_tags_to_attribs cfg env =
        ([Call.describeSnapshots cfg.snapSearchTag cfg.snapSearchVal],
         .error (.sysExit "Found no matching snapshots to reconstitute: aborting")) := by
      rw [ebs_snap_tags_to_attribs, ebs_get_snap_info]
      simp [hempty]
    rw [bindF_ok, hs, bindF_error]

theorem c8_empty_snapshot_abort_witness :
    emptySnapEnv.snapshots = []
    ∧ isErr (mainFlow happyCfg emptySnapEnv).2 = true
    ∧ (mainFlow happyCfg emptySnapEnv).2 =
        .error (.sysExit "Found no matching snapshots to reconstitute: aborting") :=
  ⟨rfl, (c8_empty_snapshot_abort happyCfg emptySnapEnv rfl).1,
    (c8_empty_snapshot_abort happyCfg emptySnapEnv rfl).2.2 (by decide)⟩

/-- C9: a volume kind other than io1 or gp2 makes the run abort without
any volume-create or instance-launch call, and (once the reconstitute
loop is entered with a readable first snapshot record) with exactly the
unsupported-volume-type configuration-error message. -/
theorem c9_unsupported_kind_abort (cfg : Config) (env : Env)
    (hty1 : cfg.ebsType ≠ "io1") (hty2 : cfg.ebsType ≠ "gp2")
    (hne : env.snapshots ≠ []) :
    isErr (mainFlow cfg env).2 = true
    ∧ (mainFlow cfg env).1.all (fun c => !(isCreateVolume c || isRunInstances c)) = true
    ∧ ∀ (b sid : String) (a : SnapAttr) (rest : SnapAttribs) (e1 d1 : String),
        dictGet a.tags cfg.snapEc2IdTag = some e1 →
        dictGet a.tags cfg.snapDevTag = some d1 →
        ebs_snap_reconstitute cfg env b cfg.ebsType ((sid, a) :: rest) =
          ([], .error (.sysExit ("ERROR: requested volume-type \"" ++ cfg.ebsType ++ "\" not currently supported. Aborting... "))) := by
  obtain ⟨h1, h2⟩ := mainFlow_early_abort cfg env (Or.inr ⟨hty1, hty2⟩)
  refine ⟨h1, h2, ?_⟩
  intro b sid a rest e1 d1 hd1 hd2
  simp only [ebs_snap_reconstitute, hd1, hd2]
  rw [if_neg hty1, if_neg hty2]

theorem c9_unsupported_kind_abort_witness :
    io2Cfg.ebsType ≠ "io1" ∧ io2Cfg.ebsType ≠ "gp2" ∧ happyEnv.snapshots ≠ []
    ∧ isErr (mainFlow io2Cfg happyEnv).2 = true
    ∧ (mainFlow io2Cfg happyEnv).1.all (fun c => !(isCreateVolume c || isRunInstances c)) = true :=
  ⟨by decide, by decide, by decide,
    (c9_unsupported_kind_abort io2Cfg happyEnv (by decide) (by decide) (by decide)).1,
    (c9_unsupported_kind_abort io2Cfg happyEnv (by decide) (by decide) (by decide)).2.1⟩

/-- C3: with the security-group flag omitted, `validate_security_group`
is still invoked unconditionally and raises an uncaught AttributeError
(`None.split`), so the run never completes and never gets past the
validators — contrary to a flag documented as optional and to the guard
at line 811 that anticipates an absent list. -/
theorem c3_omitted_sg_crashes (cfg : Config) (env : Env)
    (hsg : cfg.securityGroups = none) :
    validate_security_group env cfg.securityGroups = ([], .error (.uncaught "AttributeError"))
    ∧ isErr (mainFlow cfg env).2 = true
    ∧ (mainFlow cfg env).1.all isValidationCall = true := by
  have hVP : isErr (validatePhase cfg env).2 = true := by
    rcases hv : validatePhase cfg env with ⟨t, r⟩
    cases r with
    | error e => rfl
    | ok v =>
      exfalso
      rw [validatePhase] at hv
      obtain ⟨t1, u1, t2, g1, g2, _⟩ := bindF_eq_ok hv
      obtain ⟨t3, ami, t4, g3, g4, _⟩ := bindF_eq_ok g2
      obtain ⟨t5, az, t6, g5, g6, _⟩ := bindF_eq_ok g4
      obtain ⟨t7, sgs, t8, g7, g8, _⟩ := bindF_eq_ok g6
      rw [hsg] at g7
      rw [show validate_security_group env none =
        ([], .error (.uncaught "AttributeError")) from rfl] at g7
      simp at g7
  refine ⟨by rw [hsg]; rfl, ?_, ?_⟩
  · rw [mainFlow]
    rcases hv : validatePhase cfg env with ⟨t, r⟩
    rw [hv] at hVP
    cases r with
    | error e => rw [bindF_error]; rfl
    | ok v => exact Bool.noConfusion hVP
  · have hval := validatePhase_calls cfg env
    rw [mainFlow]
    rcases hv : validatePhase cfg env with ⟨t, r⟩
    rw [hv] at hVP hval
    cases r with
    | error e => rw [bindF_error]; simpa using hval
    | ok v => exact Bool.noConfusion hVP

theorem c3_omitted_sg_crashes_witness :
    noSgCfg.securityGroups = none
    ∧ validate_security_group happyEnv noSgCfg.securityGroups =
        ([], .error (.uncaught "AttributeError"))
    ∧ isErr (mainFlow noSgCfg happyEnv).2 = true :=
  ⟨rfl, (c3_omitted_sg_crashes noSgCfg happyEnv rfl).1,
    (c3_omitted_sg_crashes noSgCfg happyEnv rfl).2.1⟩

theorem validatePhase_az {cfg : Config} {env : Env} {s az : String}
    {t : List Call} {v : ValCtx}
    (hsub : cfg.ec2Subnet = some s) (haz : env.subnetAz s = some az)
    (h : validatePhase cfg env = (t, .ok v)) : v.ec2Az = az := by
  rw [validatePhase] at h
  obtain ⟨t1, u1, t2, g1, g2, _⟩ := bindF_eq_ok h
  obtain ⟨t3, ami, t4, g3, g4, _⟩ := bindF_eq_ok g2
  obtain ⟨t5, az2, t6, g5, g6, _⟩ := bindF_eq_ok g4
  obtain ⟨t7, sgs, t8, g7, g8, _⟩ := bindF_eq_ok g6
  obtain ⟨t9, u2, t10, g9, g10, _⟩ := bindF_eq_ok g8
  rw [hsub, validate_subnet.eq_def] at g5
  simp only [haz] at g5
  simp only [Prod.mk.injEq, Except.ok.injEq] at g5 g10
  rw [← g10.2]
  exact g5.2.symm

theorem reconstitute_calls_az (cfg : Config) (env : Env) (b ty : String) :
    ∀ attrs : SnapAttribs,
      ((ebs_snap_reconstitute cfg env b ty attrs).1).all
        (fun c => callBuildAz c == some b) = true := by
  intro attrs
  induction attrs with
  | nil => rfl
  | cons p rest ih =>
    rcases p with ⟨sid, a⟩
    rcases h1 : dictGet a.tags cfg.snapEc2IdTag with _ | e1
    · simp [ebs_snap_reconstitute, h1]
    rcases h2 : dictGet a.tags cfg.snapDevTag with _ | d1
    · simp [ebs_snap_reconstitute, h1, h2]
    by_cases hio : ty = "io1"
    · rcases hvi : validate_io1_config cfg.ebsIops cfg.ebsType a.volumeSize with e | iops
      · cases e <;> simp [ebs_snap_reconstitute, h1, h2, hio, hvi]
      · rcases hcv : env.createVolume sid with _ | vid
        · simp [ebs_snap_reconstitute, h1, h2, hio, hvi, hcv, callBuildAz]
        · rcases hr : ebs_snap_reconstitute cfg env b ty rest with ⟨tr, rr⟩
          rw [hr] at ih
          simp only [ebs_snap_reconstitute, h1, h2, hvi, hcv, hr, if_pos hio]
          rw [List.all_cons, Bool.and_eq_true]
          exact ⟨by simp [callBuildAz], by simpa using ih⟩
    · by_cases hgp : ty = "gp2"
      · rcases hcv : env.createVolume sid with _ | vid
        · simp [ebs_snap_reconstitute, h1, h2, hio, hgp, hcv, callBuildAz]
        · rcases hr : ebs_snap_reconstitute cfg env b ty rest with ⟨tr, rr⟩
          rw [hr] at ih
          simp only [ebs_snap_reconstitute, h1, h2, hcv, hr, if_neg hio, if_pos hgp]
          rw [List.all_cons, Bool.and_eq_true]
          exact ⟨by simp [callBuildAz], by simpa using ih⟩
      · simp [ebs_snap_reconstitute, h1, h2, hio, hgp]

theorem filterMap_all_of_all (b : String) : ∀ tr : List Call,
    tr.all (fun c => callBuildAz c == some b) = true →
    (tr.filterMap callBuildAz).all (fun z => z == b) = true := by
  intro tr
  induction tr with
  | nil => intro h; rfl
  | cons c cs ih =>
    intro h
    rw [List.all_cons, Bool.and_eq_true] at h
    rcases hc : callBuildAz c with _ | z
    · simp [List.filterMap_cons, hc, ih h.2]
    · have hz : z = b := by
        rw [hc] at h
        simpa using h.1
      simp [List.filterMap_cons, hc, hz, ih h.2]

/-- C10: `recovery_ec2_get_az` passes any non-empty zone through
unchanged, and since the main flow hands it the zone resolved from the
deployment subnet, every volume-create and instance-placement zone of a
run equals the subnet's availability zone (the snapshot-tag fallback is
never consulted). -/
theorem c10_build_az_from_subnet :
    (∀ (az : String) (attrs : SnapAttribs), az ≠ "" →
      recovery_ec2_get_az az attrs = .ok az)
    ∧ ∀ (cfg : Config) (env : Env) (s az : String),
        cfg.ec2Subnet = some s → env.subnetAz s = some az → az ≠ "" →
        ((mainFlow cfg env).1.filterMap callBuildAz).all (fun z => z == az) = true := by
  constructor
  · intro az attrs h
    rw [recovery_ec2_get_az.eq_def, if_neg h]
  · intro cfg env s az hsub haz hne
    have hval := validatePhase_calls cfg env
    rw [mainFlow]
    rcases hv : validatePhase cfg env with ⟨t, r⟩
    rw [hv] at hval
    have htnil : t.filterMap callBuildAz = [] := by
      rw [List.filterMap_eq_nil_iff]
      intro c hc
      exact (isValidationCall_clean c ((List.all_eq_true.mp hval) c hc)).2.2
    cases r with
    | error e =>
      rw [bindF_error]
      simp [htnil]
    | ok v =>
      have hvz : v.ec2Az = az := validatePhase_az hsub haz hv
      rw [bindF_ok]
      by_cases hemp : env.snapshots = []
      · have hs : ebs_snap_tags_to_attribs cfg env =
            ([Call.describeSnapshots cfg.snapSearchTag cfg.snapSearchVal],
             .error (.sysExit "Found no matching snapshots to reconstitute: aborting")) := by
          rw [ebs_snap_tags_to_attribs, ebs_get_snap_info]
          simp [hemp]
        rw [hs, bindF_error]
        simp [List.filterMap_append, htnil, callBuildAz]
      · have hs : ebs_snap_tags_to_attribs cfg env =
            ([Call.describeSnapshots cfg.snapSearchTag cfg.snapSearchVal],
             .ok (env.snapshots.map (fun i => (i.snapshotId, SnapAttr.mk i.volumeSize i.tags)))) := by
          rw [ebs_snap_tags_to_attribs, ebs_get_snap_info]
          simp [List.isEmpty_iff, hemp]
        rw [hs, bindF_ok]
        rcases hg : recovery_ec2_get_az v.ec2Az
            (env.snapshots.map (fun i => (i.snapshotId, SnapAttr.mk i.volumeSize i.tags))) with e | bz
        · rw [hg, bindF_error]
          simp [List.filterMap_append, htnil, callBuildAz]
        · have hbz : bz = az := by
            rw [hvz, recovery_ec2_get_az.eq_def, if_neg hne] at hg
            simpa using hg.symm
          rw [hg, bindF_ok]
          have hrc := reconstitute_calls_az cfg env bz cfg.ebsType
            (env.snapshots.map (fun i => (i.snapshotId, SnapAttr.mk i.volumeSize i.tags)))
          rcases hr : ebs_snap_reconstitute cfg env bz cfg.ebsType
              (env.snapshots.map (fun i => (i.snapshotId, SnapAttr.mk i.volumeSize i.tags))) with ⟨tr, rr⟩
          rw [hr] at hrc
          have htr := filterMap_all_of_all bz tr hrc
          rw [hbz] at htr
          cases rr with
          | error e2 =>
            rw [hr, bindF_error]
            simp [List.filterMap_append, List.all_append, htnil, callBuildAz, htr]
          | ok vols =>
            rw [hr, bindF_ok]
            rcases hri : env.runInstanceId with _ | iid
            · rw [show recovery_ec2_make env v.ec2Az =
                  ([Call.runInstances v.ec2Az], .error (.uncaught "ClientError")) from by
                rw [recovery_ec2_make.eq_def, hri], bindF_error]
              simp [List.filterMap_append, List.all_append, htnil, callBuildAz, htr, hvz]
            · rw [show recovery_ec2_make env v.ec2Az =
                  ([Call.runInstances v.ec2Az], .ok iid) from by
                rw [recovery_ec2_make.eq_def, hri], bindF_ok]
              simp [List.filterMap_append, List.all_append, htnil, callBuildAz, htr, hvz]

theorem c10_build_az_from_subnet_witness :
    recovery_ec2_get_az "us-east-1a" [] = .ok "us-east-1a"
    ∧ happyCfg.ec2Subnet = some "subnet-1"
    ∧ happyEnv.subnetAz "subnet-1" = some "us-east-1a"
    ∧ ((mainFlow happyCfg happyEnv).1.filterMap callBuildAz).all
        (fun z => z == "us-east-1a") = true :=
  ⟨c10_build_az_from_subnet.1 "us-east-1a" [] (by decide), rfl, rfl,
    c10_build_az_from_subnet.2 happyCfg happyEnv "subnet-1" "us-east-1a" rfl rfl (by decide)⟩

theorem devOfV_pair (vid e d : String) :
    devOfV (VolumeInfo.mk vid [("Original Instance", e), ("Original Attachment", d)]) = some d := rfl

theorem dictGet_pair (e d : String) :
    dictGet [("Original Instance", e), ("Original Attachment", d)] "Original Attachment" = some d := rfl

/-- A successful reconstitution tags each created volume, in batch
order, with exactly its own snapshot record's original-device value. -/
theorem reconstitute_ok_align (cfg : Config) (env : Env) (b ty : String) :
    ∀ (attrs : SnapAttribs) (t : List Call) (vols : List VolumeInfo),
      ebs_snap_reconstitute cfg env b ty attrs = (t, .ok vols) →
      vols.map devOfV = attrs.map (devTagOf cfg)
      ∧ vols.map (fun v => dictGet v.tags "Original Attachment") = attrs.map (devTagOf cfg) := by
  intro attrs
  induction attrs with
  | nil =>
    intro t vols h
    rw [ebs_snap_reconstitute] at h
    simp only [Prod.mk.injEq, Except.ok.injEq] at h
    rw [← h.2]
    exact ⟨rfl, rfl⟩
  | cons p rest ih =>
    rcases p with ⟨sid, a⟩
    intro t vols h
    rcases h1 : dictGet a.tags cfg.snapEc2IdTag with _ | e1
    · simp [ebs_snap_reconstitute, h1] at h
    rcases h2 : dictGet a.tags cfg.snapDevTag with _ | d1
    · simp [ebs_snap_reconstitute, h1, h2] at h
    have hdev : devTagOf cfg (sid, a) = some d1 := h2
    by_cases hio : ty = "io1"
    · rcases hvi : validate_io1_config cfg.ebsIops cfg.ebsType a.volumeSize with e | iops
      · cases e <;> simp [ebs_snap_reconstitute, h1, h2, hio, hvi] at h
      · rcases hcv : env.createVolume sid with _ | vid
        · simp [ebs_snap_reconstitute, h1, h2, hio, hvi, hcv] at h
        · rcases hr : ebs_snap_reconstitute cfg env b ty rest with ⟨tr, rr⟩
          simp only [ebs_snap_reconstitute, h1, h2, hvi, hcv, hr, if_pos hio] at h
          cases rr with
          | error e => simp [Except.map] at h
          | ok vs =>
            simp only [Except.map, Prod.mk.injEq, Except.ok.injEq] at h
            obtain ⟨hmdev, hmget⟩ := ih tr vs hr
            rw [← h.2]
            refine ⟨?_, ?_⟩
            · rw [List.map_cons, List.map_cons, devOfV_pair, hmdev, hdev]
            · rw [List.map_cons, List.map_cons, dictGet_pair, hmget, hdev]
    · by_cases hgp : ty = "gp2"
      · rcases hcv : env.createVolume sid with _ | vid
        · simp [ebs_snap_reconstitute, h1, h2, hio, hgp, hcv] at h
        · rcases hr : ebs_snap_reconstitute cfg env b ty rest with ⟨tr, rr⟩
          simp only [ebs_snap_reconstitute, h1, h2, hcv, hr, if_neg hio, if_pos hgp] at h
          cases rr with
          | error e => simp [Except.map] at h
          | ok vs =>
            simp only [Except.map, Prod.mk.injEq, Except.ok.injEq] at h
            obtain ⟨hmdev, hmget⟩ := ih tr vs hr
            rw [← h.2]
            refine ⟨?_, ?_⟩
            · rw [List.map_cons, List.map_cons, devOfV_pair, hmdev, hdev]
            · rw [List.map_cons, List.map_cons, dictGet_pair, hmget, hdev]
      · simp [ebs_snap_reconstitute, h1, h2, hio, hgp] at h

theorem attachDevices_cons_attach (d i vol : String) (tr : List Call) :
    attachDevices (Call.attachVolume d i vol :: tr) = d :: attachDevices tr := rfl

theorem attachVolIds_cons_attach (d i vol : String) (tr : List Call) :
    attachVolIds (Call.attachVolume d i vol :: tr) = vol :: attachVolIds tr := rfl

/-- A successful attach loop issues exactly one attach call per volume,
in order, each at the device path carried in that volume's
`Original Attachment` tag. -/
theorem attachLoop_ok (env : Env) (inst : String) :
    ∀ (vols : List VolumeInfo) (t : List Call),
      attachLoop env inst vols = (t, .ok ()) →
      attachDevices t = vols.filterMap devOfV
      ∧ attachVolIds t = vols.map VolumeInfo.volumeId
      ∧ ∀ v ∈ vols, (devOfV v).isSome = true := by
  intro vols
  induction vols with
  | nil =>
    intro t h
    rw [attachLoop] at h
    simp only [Prod.mk.injEq] at h
    rw [← h.1]
    exact ⟨rfl, rfl, by simp⟩
  | cons v vs ih =>
    intro t h
    rcases hf : v.tags.find? (fun q => q.1 == "Original Attachment") with _ | kv
    · simp [attachLoop, hf] at h
    · have hdv : devOfV v = some kv.2 := by simp [devOfV, hf]
      cases hok : env.attachOk v.volumeId with
      | false => simp [attachLoop, hf, hok] at h
      | true =>
        rcases hr : attachLoop env inst vs with ⟨tr, rr⟩
        simp only [attachLoop, hf, hok, hr, if_pos] at h
        cases rr with
        | error e => simp at h
        | ok u =>
          cases u
          simp only [Prod.mk.injEq, and_true] at h
          obtain ⟨h3, h4, h5⟩ := ih tr hr
          rw [← h]
          refine ⟨?_, ?_, ?_⟩
          · rw [attachDevices_cons_attach, h3, List.filterMap_cons, hdv]
          · rw [attachVolIds_cons_attach, h4, List.map_cons]
          · intro w hw
            rcases List.mem_cons.mp hw with hw | hw
            · rw [hw, hdv]; rfl
            · exact h5 w hw

theorem filterMap_map_some {α β : Type} (f : α → Option β) :
    ∀ l : List α, (∀ x ∈ l, (f x).isSome = true) →
      (l.filterMap f).map some = l.map f := by
  intro l
  induction l with
  | nil => intro h; rfl
  | cons x xs ih =>
    intro h
    rcases hx : f x with _ | bb
    · have hs := h x (List.mem_cons_self x xs)
      rw [hx] at hs
      simp at hs
    · simp [List.filterMap_cons, hx, ih (fun y hy => h y (List.mem_cons_of_mem x hy))]

/-- C1: on any run whose reconstruction and attachment both succeed, the
ordered list of device paths used by the attach calls is exactly the list
of the batch's original-device tag values; each volume carries its own
snapshot's value and is attached at exactly that path, with no
reassignment across volumes. -/
theorem c1_attach_at_original_paths (cfg : Config) (env : Env) (b ty inst : String)
    (attrs : SnapAttribs) (t1 t2 : List Call) (vols : List VolumeInfo)
    (hrec : ebs_snap_reconstitute cfg env b ty attrs = (t1, .ok vols))
    (hatt : ebs_reconstitution_attach env inst vols = (t2, .ok ())) :
    (attachDevices t2).map some = attrs.map (devTagOf cfg)
    ∧ attachDevices t2 = vols.filterMap devOfV
    ∧ attachVolIds t2 = vols.map VolumeInfo.volumeId
    ∧ vols.map devOfV = attrs.map (devTagOf cfg) := by
  obtain ⟨hmdev, _⟩ := reconstitute_ok_align cfg env b ty attrs t1 vols hrec
  have hloop : attachLoop env inst vols = (t2, .ok ()) := by
    cases vols with
    | nil => simp [ebs_reconstitution_attach] at hatt
    | cons v vs => exact hatt
  obtain ⟨h3, h4, h5⟩ := attachLoop_ok env inst vols t2 hloop
  refine ⟨?_, h3, h4, hmdev⟩
  rw [h3, filterMap_map_some devOfV vols h5, hmdev]

theorem c1_attach_at_original_paths_witness :
    ebs_snap_reconstitute happyCfg happyEnv "us-east-1a" "gp2" attrsW =
      (createTraceW, .ok volsW)
    ∧ ebs_reconstitution_attach happyEnv "i-recover" volsW = (attachTraceW, .ok ())
    ∧ (attachDevices attachTraceW).map some = attrsW.map (devTagOf happyCfg)
    ∧ attachDevices attachTraceW = volsW.filterMap devOfV
    ∧ attachVolIds attachTraceW = volsW.map VolumeInfo.volumeId
    ∧ volsW.map devOfV = attrsW.map (devTagOf happyCfg) := by
  have h := c1_attach_at_original_paths happyCfg happyEnv "us-east-1a" "gp2" "i-recover"
    attrsW createTraceW attachTraceW volsW (by decide) (by decide)
  exact ⟨by decide, by decide, h.1, h.2.1, h.2.2.1, h.2.2.2⟩

/-- When the subject string has exactly the pattern's length, the
anchored match either consumes the whole string or fails. -/
theorem reMatchHex_full (p s : List Char) (n : Nat) (hlen : s.length = p.length + n) :
    reMatchHex p n s =
      (if s.take p.length = p ∧ (s.drop p.length).all isLowerHex = true
       then some s else none) := by
  rw [reMatchHex]
  have hd : (s.drop p.length).length = n := by
    rw [List.length_drop]; omega
  have htake : (s.drop p.length).take n = s.drop p.length :=
    List.take_of_length_le (by omega)
  rw [htake]
  by_cases hp : s.take p.length = p
  · have hps : p ++ s.drop p.length = s := by
      conv_rhs => rw [← List.take_append_drop p.length s]
      rw [hp]
    by_cases hx : (s.drop p.length).all isLowerHex = true
    · rw [if_pos ⟨hp, by omega, hx⟩, if_pos ⟨hp, hx⟩, hps]
    · rw [if_neg (fun hcon => hx hcon.2.2), if_neg (fun hcon => hx hcon.2)]
  · rw [if_neg (fun hcon => hp hcon.1), if_neg (fun hcon => hp hcon.1)]

theorem validate_ami_id_spec (env : Env) (a : List Char) :
    ((validate_ami_id env (some a)).2 = .ok a ↔ WellFormedId amiPfx a ∧ env.amiExists a = true)
    ∧ ∀ e, (validate_ami_id env (some a)).2 = .error e →
        e = amiLenErr a ∨ e = amiCharErr a ∨ e = amiNotFoundErr a := by
  have hplen : amiPfx.length = 4 := rfl
  by_cases h12 : a.length = 12
  · have hrm := reMatchHex_full amiPfx a 8 (by rw [h12]; rfl)
    by_cases hc : a.take amiPfx.length = amiPfx ∧ (a.drop amiPfx.length).all isLowerHex = true
    · rw [if_pos hc] at hrm
      cases hex : env.amiExists a with
      | true =>
        have hval : (validate_ami_id env (some a)).2 = .ok a := by
          rw [validate_ami_id.eq_def]
          simp [h12, hrm, hex]
        refine ⟨?_, ?_⟩
        · rw [hval]
          constructor
          · intro _
            refine ⟨⟨hc.1, hc.2, Or.inl ?_⟩, rfl⟩
            rw [List.length_drop, h12, hplen]
          · intro _; rfl
        · intro e he
          rw [hval] at he
          exact absurd he (by simp)
      | false =>
        have hval : (validate_ami_id env (some a)).2 = .error (amiNotFoundErr a) := by
          rw [validate_ami_id.eq_def]
          simp [h12, hrm, hex]
        refine ⟨?_, ?_⟩
        · rw [hval]
          constructor
          · intro h; exact absurd h (by simp)
          · rintro ⟨_, hx2⟩
            exact Bool.noConfusion hx2
        · intro e he
          rw [hval] at he
          right; right; simpa using he.symm
    · rw [if_neg hc] at hrm
      have hval : (validate_ami_id env (some a)).2 = .error (amiCharErr a) := by
        rw [validate_ami_id.eq_def]
        simp [h12, hrm]
      refine ⟨?_, ?_⟩
      · rw [hval]
        constructor
        · intro h; exact absurd h (by simp)
        · rintro ⟨⟨hp, hx, _⟩, _⟩
          exact absurd ⟨hp, hx⟩ hc
      · intro e he
        rw [hval] at he
        right; left; simpa using he.symm
  · by_cases h21 : a.length = 21
    · have hrm := reMatchHex_full amiPfx a 17 (by rw [h21]; rfl)
      by_cases hc : a.take amiPfx.length = amiPfx ∧ (a.drop amiPfx.length).all isLowerHex = true
      · rw [if_pos hc] at hrm
        cases hex : env.amiExists a with
        | true =>
          have hval : (validate_ami_id env (some a)).2 = .ok a := by
            rw [validate_ami_id.eq_def]
            simp [h12, h21, hrm, hex]
          refine ⟨?_, ?_⟩
          · rw [hval]
            constructor
            · intro _
              refine ⟨⟨hc.1, hc.2, Or.inr ?_⟩, rfl⟩
              rw [List.length_drop, h21, hplen]
            · intro _; rfl
          · intro e he
            rw [hval] at he
            exact absurd he (by simp)
        | false =>
          have hval : (validate_ami_id env (some a)).2 = .error (amiNotFoundErr a) := by
            rw [validate_ami_id.eq_def]
            simp [h12, h21, hrm, hex]
          refine ⟨?_, ?_⟩
          · rw [hval]
            constructor
            · intro h; exact absurd h (by simp)
            · rintro ⟨_, hx2⟩
              exact Bool.noConfusion hx2
          · intro e he
            rw [hval] at he
            right; right; simpa using he.symm
      · rw [if_neg hc] at hrm
        have hval : (validate_ami_id env (some a)).2 = .error (amiCharErr a) := by
          rw [validate_ami_id.eq_def]
          simp [h12, h21, hrm]
        refine ⟨?_, ?_⟩
        · rw [hval]
          constructor
          · intro h; exact absurd h (by simp)
          · rintro ⟨⟨hp, hx, _⟩, _⟩
            exact absurd ⟨hp, hx⟩ hc
        · intro e he
          rw [hval] at he
          right; left; simpa using he.symm
    · have hval : (validate_ami_id env (some a)).2 = .error (amiLenErr a) := by
        rw [validate_ami_id.eq_def]
        simp [h12, h21]
      refine ⟨?_, ?_⟩
      · rw [hval]
        constructor
        · intro h; exact absurd h (by simp)
        · rintro ⟨⟨hp, _, hl⟩, _⟩
          have h4 : amiPfx.length ≤ a.length := by
            have hlen2 := congrArg List.length hp
            rw [List.length_take] at hlen2
            omega
          rw [hplen] at h4
          rcases hl with hl | hl
          · rw [List.length_drop, hplen] at hl
            exact absurd (by omega : a.length = 12) h12
          · rw [List.length_drop, hplen] at hl
            exact absurd (by omega : a.length = 21) h21
      · intro e he
        rw [hval] at he
        left; simpa using he.symm

theorem validate_sg_entry_spec (env : Env) (g : List Char) :
    ((validate_sg_entry env g).2 = .ok () ↔ WellFormedId sgPfx g ∧ env.sgExists g = true)
    ∧ ∀ e, (validate_sg_entry env g).2 = .error e →
        e = sgLenErr g ∨ e = sgCharErr g ∨ e = sgNotFoundErr g := by
  have hplen : sgPfx.length = 3 := rfl
  by_cases h11 : g.length = 11
  · have hrm := reMatchHex_full sgPfx g 8 (by rw [h11]; rfl)
    by_cases hc : g.take sgPfx.length = sgPfx ∧ (g.drop sgPfx.length).all isLowerHex = true
    · rw [if_pos hc] at hrm
      cases hex : env.sgExists g with
      | true =>
        have hval : (validate_sg_entry env g).2 = .ok () := by
          rw [validate_sg_entry.eq_def]
          simp [h11, hrm, hex]
        refine ⟨?_, ?_⟩
        · rw [hval]
          constructor
          · intro _
            refine ⟨⟨hc.1, hc.2, Or.inl ?_⟩, rfl⟩
            rw [List.length_drop, h11, hplen]
          · intro _; rfl
        · intro e he
          rw [hval] at he
          exact absurd he (by simp)
      | false =>
        have hval : (validate_sg_entry env g).2 = .error (sgNotFoundErr g) := by
          rw [validate_sg_entry.eq_def]
          simp [h11, hrm, hex]
        refine ⟨?_, ?_⟩
        · rw [hval]
          constructor
          · intro h; exact absurd h (by simp)
          · rintro ⟨_, hx2⟩
            exact Bool.noConfusion hx2
        · intro e he
          rw [hval] at he
          right; right; simpa using he.symm
    · rw [if_neg hc] at hrm
      have hval : (validate_sg_entry env g).2 = .error (sgCharErr g) := by
        rw [validate_sg_entry.eq_def]
        simp [h11, hrm]
      refine ⟨?_, ?_⟩
      · rw [hval]
        constructor
        · intro h; exact absurd h (by simp)
        · rintro ⟨⟨hp, hx, _⟩, _⟩
          exact absurd ⟨hp, hx⟩ hc
      · intro e he
        rw [hval] at he
        right; left; simpa using he.symm
  · by_cases h20 : g.length = 20
    · have hrm := reMatchHex_full sgPfx g 17 (by rw [h20]; rfl)
      by_cases hc : g.take sgPfx.length = sgPfx ∧ (g.drop sgPfx.length).all isLowerHex = true
      · rw [if_pos hc] at hrm
        cases hex : env.sgExists g with
        | true =>
          have hval : (validate_sg_entry env g).2 = .ok () := by
            rw [validate_sg_entry.eq_def]
            simp [h11, h20, hrm, hex]
          refine ⟨?_, ?_⟩
          · rw [hval]
            constructor
            · intro _
              refine ⟨⟨hc.1, hc.2, Or.inr ?_⟩, rfl⟩
              rw [List.length_drop, h20, hplen]
            · intro _; rfl
          · intro e he
            rw [hval] at he
            exact absurd he (by simp)
        | false =>
          have hval : (validate_sg_entry env g).2 = .error (sgNotFoundErr g) := by
            rw [validate_sg_entry.eq_def]
            simp [h11, h20, hrm, hex]
          refine ⟨?_, ?_⟩
          · rw [hval]
            constructor
            · intro h; exact absurd h (by simp)
            · rintro ⟨_, hx2⟩
              exact Bool.noConfusion hx2
          · intro e he
            rw [hval] at he
            right; right; simpa using he.symm
      · rw [if_neg hc] at hrm
        have hval : (validate_sg_entry env g).2 = .error (sgCharErr g) := by
          rw [validate_sg_entry.eq_def]
          simp [h11, h20, hrm]
        refine ⟨?_, ?_⟩
        · rw [hval]
          constructor
          · intro h; exact absurd h (by simp)
          · rintro ⟨⟨hp, hx, _⟩, _⟩
            exact absurd ⟨hp, hx⟩ hc
        · intro e he
          rw [hval] at he
          right; left; simpa using he.symm
    · have hval : (validate_sg_entry env g).2 = .error (sgLenErr g) := by
        rw [validate_sg_entry.eq_def]
        simp [h11, h20]
      refine ⟨?_, ?_⟩
      · rw [hval]
        constructor
        · intro h; exact absurd h (by simp)
        · rintro ⟨⟨hp, _, hl⟩, _⟩
          have h3 : sgPfx.length ≤ g.length := by
            have hlen2 := congrArg List.length hp
            rw [List.length_take] at hlen2
            omega
          rw [hplen] at h3
          rcases hl with hl | hl
          · rw [List.length_drop, hplen] at hl
            exact absurd (by omega : g.length = 11) h11
          · rw [List.length_drop, hplen] at hl
            exact absurd (by omega : g.length = 20) h20
      · intro e he
        rw [hval] at he
        left; simpa using he.symm

/-- C6: an image or security-group identifier is accepted exactly when
it is the resource-type marker followed by 8 or 17 lowercase-hex
characters and the provider confirms it exists; every rejection carries
one of the three distinguishable reasons (bad length, bad characters,
not found), and the fourth message in the image validator is
unreachable. -/
theorem c6_id_validation (env : Env) (a g : List Char) :
    ((validate_ami_id env (some a)).2 = .ok a ↔ WellFormedId amiPfx a ∧ env.amiExists a = true)
    ∧ (∀ e, (validate_ami_id env (some a)).2 = .error e →
        e = amiLenErr a ∨ e = amiCharErr a ∨ e = amiNotFoundErr a)
    ∧ ((validate_sg_entry env g).2 = .ok () ↔ WellFormedId sgPfx g ∧ env.sgExists g = true)
    ∧ (∀ e, (validate_sg_entry env g).2 = .error e →
        e = sgLenErr g ∨ e = sgCharErr g ∨ e = sgNotFoundErr g) :=
  ⟨(validate_ami_id_spec env a).1, (validate_ami_id_spec env a).2,
   (validate_sg_entry_spec env g).1, (validate_sg_entry_spec env g).2⟩

theorem c6_id_validation_witness :
    (validate_ami_id happyEnv (some "ami-0a1b2c3d".toList)).2 = .ok "ami-0a1b2c3d".toList
    ∧ (validate_sg_entry happyEnv "sg-0a1b2c3d".toList).2 = .ok ()
    ∧ (amiLenErr "ami-xyz".toList = amiLenErr "ami-xyz".toList
        ∨ amiLenErr "ami-xyz".toList = amiCharErr "ami-xyz".toList
        ∨ amiLenErr "ami-xyz".toList = amiNotFoundErr "ami-xyz".toList) :=
  ⟨((c6_id_validation happyEnv "ami-0a1b2c3d".toList "sg-0a1b2c3d".toList).1).mpr (by decide),
   ((c6_id_validation happyEnv "ami-0a1b2c3d".toList "sg-0a1b2c3d".toList).2.2.1).mpr (by decide),
   (c6_id_validation happyEnv "ami-xyz".toList "sg-0a1b2c3d".toList).2.1
     (amiLenErr "ami-xyz".toList) (by decide)⟩
